import Mathlib

/-!
Verification of the pin-cursor crate: a `!Unpin` wrapper (`PinCursor<T>`)
around `async_std::io::Cursor<T>` that forwards every read/write/seek
operation to the inner cursor.

The inner buffer-cursor is an external collaborator (spec §3); we embed it
for the concrete buffer type `Vec<u8>` with the semantics of
`std::io::Cursor<Vec<u8>>`, which `async_std::io::Cursor` wraps and polls
synchronously (every poll returns `Ready`).  Bytes are modelled as `Nat`,
the `u64` position as `Nat`, and the `i64` seek offsets as `Int`; the only
place 64-bit overflow matters is `Cursor::seek`'s `checked_add_signed`,
modelled by an explicit bound check.  Each asynchronous operation is
embedded as a pure state transition returning its result together with the
updated cursor.
-/

namespace PinCursorSpec

/-- Seek specification, `std::io::SeekFrom`: an origin plus an offset. -/
inductive SeekFrom where
  | start (n : Nat)
  | fromEnd (off : Int)
  | current (off : Int)
deriving DecidableEq

/-- The one I/O error reported on these code paths: `std::io::Cursor::seek`'s
"invalid seek to a negative or overflowing position" (`InvalidInput`). -/
inductive IOErr where
  | invalidSeek
deriving DecidableEq

/-- The inner buffer-cursor `async_std::io::Cursor<Vec<u8>>` (external
collaborator, spec §3): an in-memory byte sequence plus a current offset. -/
structure Cursor where
  inner : List Nat
  pos : Nat
deriving DecidableEq

/-- The `PinCursor<T>` struct of `lib.rs` at `T = Vec<u8>`: one inner cursor
field `c` plus the zero-information `PhantomPinned` marker field `_p`
(embedded as `Unit`, since `PhantomPinned` carries no data). -/
structure PinCursor where
  c : Cursor
  _p : Unit
deriving DecidableEq

/-- Synchronous position read, `std::io::Cursor::position`. -/
def Cursor.position (c : Cursor) : Nat :=
  c.pos

/-- Synchronous position write, `std::io::Cursor::set_position`. -/
def Cursor.set_position (c : Cursor) (p : Nat) : Cursor :=
  { c with pos := p }

/-- Read into a destination buffer of length `k`: per
`impl Read for std::io::Cursor<T: AsRef<[u8]>>`, the readable slice starts
at `min(pos, len)` (here `List.drop` saturates), at most `k` bytes are
copied out, and the position advances by the number of bytes read.  The
result is the list of bytes read (its length is the returned byte count);
this path never errors. -/
def Cursor.read (c : Cursor) (k : Nat) : List Nat × Cursor :=
  let data := (c.inner.drop c.pos).take k
  (data, { c with pos := c.pos + data.length })

/-- Write a byte sequence at the current position: per `vec_write` in
`std::io::Cursor`'s `Write` impl for `Vec<u8>`, the buffer is first
zero-padded up to `pos` if it is shorter, then the bytes overwrite the
range starting at `pos` (extending the buffer as needed); the full input
length is reported written and the position advances past it. -/
def Cursor.write (c : Cursor) (data : List Nat) : Nat × Cursor :=
  let padded := c.inner ++ List.replicate (c.pos - c.inner.length) 0
  let newBuf := padded.take c.pos ++ data ++ padded.drop (c.pos + data.length)
  (data.length, { inner := newBuf, pos := c.pos + data.length })

/-- Seek, per `impl Seek for std::io::Cursor`: `Start(n)` sets the position
unconditionally; `End`/`Current` add the signed offset to the base
(`checked_add_signed`), failing with the invalid-seek error — and leaving
the position untouched — when the result is negative or exceeds `u64`.
The success value is the new absolute position. -/
def Cursor.seek (c : Cursor) (sf : SeekFrom) : Except IOErr Nat × Cursor :=
  match sf with
  | .start n => (.ok n, { c with pos := n })
  | .fromEnd off =>
    let n : Int := (c.inner.length : Int) + off
    if 0 ≤ n ∧ n < 2 ^ 64 then (.ok n.toNat, { c with pos := n.toNat })
    else (.error .invalidSeek, c)
  | .current off =>
    let n : Int := (c.pos : Int) + off
    if 0 ≤ n ∧ n < 2 ^ 64 then (.ok n.toNat, { c with pos := n.toNat })
    else (.error .invalidSeek, c)

/-- The absolute offset a seek specification resolves to (base position of
its origin plus the signed offset), before the in-range check. -/
def Cursor.seekTarget (c : Cursor) : SeekFrom → Int
  | .start n => (n : Int)
  | .fromEnd off => (c.inner.length : Int) + off
  | .current off => (c.pos : Int) + off

/-- Vectored read, per `std::io::Cursor`'s `read_vectored`: one plain read
per destination segment, in order, accumulating the byte count.  The
segment contents read are returned alongside the cumulative count. -/
def Cursor.readVectored (c : Cursor) (ks : List Nat) : (Nat × List (List Nat)) × Cursor :=
  match ks with
  | [] => ((0, []), c)
  | k :: rest =>
    let step := c.read k
    let restRes := step.2.readVectored rest
    ((step.1.length + restRes.1.1, step.1 :: restRes.1.2), restRes.2)

/-- Vectored write, per `vec_write_vectored` in `std::io::Cursor`: one
plain write per source segment, in order, accumulating the byte count. -/
def Cursor.writeVectored (c : Cursor) (bufs : List (List Nat)) : Nat × Cursor :=
  match bufs with
  | [] => (0, c)
  | b :: rest =>
    let step := c.write b
    let restRes := step.2.writeVectored rest
    (step.1 + restRes.1, restRes.2)

/-- Flush, per `impl Write for std::io::Cursor<Vec<u8>>`: a no-op that
always succeeds. -/
def Cursor.flush (c : Cursor) : Except IOErr Unit × Cursor :=
  (.ok (), c)

/-- Close, per `async_std::io::Cursor`'s `poll_close`, which delegates to
`poll_flush`. -/
def Cursor.close (c : Cursor) : Except IOErr Unit × Cursor :=
  c.flush

/-- `PinCursor::wrap`: take ownership of a cursor, pairing it with the
`PhantomPinned` marker. -/
def PinCursor.wrap (c : Cursor) : PinCursor :=
  { c := c, _p := () }

/-- `PinCursor::unwrap`: consume the wrapper by value, returning the inner
cursor. -/
def PinCursor.unwrap (s : PinCursor) : Cursor :=
  s.c

/-- `PinCursor::position`: delegates to the inner cursor. -/
def PinCursor.position (s : PinCursor) : Nat :=
  s.c.position

/-- `PinCursor::set_position`: projects the inner cursor field and delegates. -/
def PinCursor.set_position (s : PinCursor) (p : Nat) : PinCursor :=
  { s with c := s.c.set_position p }

/-- `PinCursor::read` / `poll_read`: both project the pinned inner cursor
and delegate; the high-level method's future resolves by polling
`poll_read`, so both are one state transition here. -/
def PinCursor.read (s : PinCursor) (k : Nat) : List Nat × PinCursor :=
  ((s.c.read k).1, { s with c := (s.c.read k).2 })

/-- `PinCursor::write` / `poll_write`: projection plus delegation. -/
def PinCursor.write (s : PinCursor) (data : List Nat) : Nat × PinCursor :=
  ((s.c.write data).1, { s with c := (s.c.write data).2 })

/-- `PinCursor::seek` / `poll_seek`: projection plus delegation. -/
def PinCursor.seek (s : PinCursor) (sf : SeekFrom) : Except IOErr Nat × PinCursor :=
  ((s.c.seek sf).1, { s with c := (s.c.seek sf).2 })

/-- `poll_read_vectored`: projection plus delegation. -/
def PinCursor.readVectored (s : PinCursor) (ks : List Nat) :
    (Nat × List (List Nat)) × PinCursor :=
  ((s.c.readVectored ks).1, { s with c := (s.c.readVectored ks).2 })

/-- `poll_write_vectored`: projection plus delegation. -/
def PinCursor.writeVectored (s : PinCursor) (bufs : List (List Nat)) :
    Nat × PinCursor :=
  ((s.c.writeVectored bufs).1, { s with c := (s.c.writeVectored bufs).2 })

/-- `poll_flush`: projection plus delegation. -/
def PinCursor.flush (s : PinCursor) : Except IOErr Unit × PinCursor :=
  ((s.c.flush).1, { s with c := (s.c.flush).2 })

/-- `poll_close`: projection plus delegation. -/
def PinCursor.close (s : PinCursor) : Except IOErr Unit × PinCursor :=
  ((s.c.close).1, { s with c := (s.c.close).2 })

/-- The sequence of single-segment wrapper reads "issued one after another"
over a list of segment lengths, per the spec's vectored-equivalence
property: per-segment contents in order plus the cumulative byte count. -/
def PinCursor.seqRead (s : PinCursor) (ks : List Nat) :
    (Nat × List (List Nat)) × PinCursor :=
  match ks with
  | [] => ((0, []), s)
  | k :: rest =>
    let step := s.read k
    let restRes := step.2.seqRead rest
    ((step.1.length + restRes.1.1, step.1 :: restRes.1.2), restRes.2)

/-- The sequence of single-segment wrapper writes issued one after another,
per the spec's vectored-equivalence property. -/
def PinCursor.seqWrite (s : PinCursor) (bufs : List (List Nat)) :
    Nat × PinCursor :=
  match bufs with
  | [] => (0, s)
  | b :: rest =>
    let step := s.write b
    let restRes := step.2.seqWrite rest
    (step.1 + restRes.1, restRes.2)

/-- The `stackpin` integration (`impl_stackpin.rs`): `FromUnpinned`'s
construction step, with `PinData = ()` (the empty side-channel). -/
def from_unpinned (src : Cursor) : PinCursor × Unit :=
  (PinCursor.wrap src, ())

/-- The `stackpin` integration's post-pin fix-up step, which does nothing. -/
def on_pin (s : PinCursor) (_pin_data : Unit) : PinCursor :=
  s

/-!
Type-capability model for the compile-time `Unpin` claim: the types the
crate's type-level assertions mention, together with the trait facts the
Rust compiler derives for them.
-/

/-- Types appearing in the crate's type-level capability assertions:
the usual buffer types (`Vec<u8>`, `&mut [u8]`), `PhantomPinned`, and the
two cursor type constructors. -/
inductive Ty where
  | u8Vec
  | u8SliceMut
  | phantomPinned
  | cursorTy (t : Ty)
  | pinCursorTy (t : Ty)
deriving DecidableEq

/-- Whether a type is `Unpin`.  `Vec<u8>` and `&mut [u8]` are
unconditionally `Unpin`; `PhantomPinned` is the one `!Unpin` primitive;
`Cursor<T>` gets the auto-trait rule (`Unpin` iff its fields are, and its
only generic field has type `T`); for `PinCursor<T>` the `pin_project!`
macro generates `Unpin` exactly when every `#[pin]` field is `Unpin`, and
its only `#[pin]` field is the `PhantomPinned` marker `_p`, which never is
— so the result is `false` for every `T`. -/
def unpin : Ty → Bool
  | .u8Vec => true
  | .u8SliceMut => true
  | .phantomPinned => false
  | .cursorTy t => unpin t
  | .pinCursorTy _ => false

/-- Whether `async_std::io::Cursor<T>` implements the async `Read` trait:
it does for the buffer types `T` modelled here (those with
`T: AsRef<[u8]> + Unpin`). -/
def cursorHasRead : Ty → Bool
  | .u8Vec => true
  | .u8SliceMut => true
  | _ => false

/-- Whether `async_std::io::Cursor<T>` implements the async `Write` trait:
it does for `Vec<u8>` and `&mut [u8]`. -/
def cursorHasWrite : Ty → Bool
  | .u8Vec => true
  | .u8SliceMut => true
  | _ => false

/-- Whether `async_std::io::Cursor<T>` implements the async `Seek` trait:
it does for the buffer types `T` modelled here. -/
def cursorHasSeek : Ty → Bool
  | .u8Vec => true
  | .u8SliceMut => true
  | _ => false

/-- Whether `PinCursor<T>` satisfies the async `Read` capability, per the
impl block `impl<T> Read for PinCursor<T> where T: Unpin, Cursor<T>: Read`.
Only the cursor types carry I/O capabilities in this model. -/
def hasRead : Ty → Bool
  | .cursorTy t => cursorHasRead t
  | .pinCursorTy t => unpin t && cursorHasRead t
  | _ => false

/-- Whether a type satisfies the async `Write` capability, per
`impl<T> Write for PinCursor<T> where T: Unpin, Cursor<T>: Write`. -/
def hasWrite : Ty → Bool
  | .cursorTy t => cursorHasWrite t
  | .pinCursorTy t => unpin t && cursorHasWrite t
  | _ => false

/-- Whether a type satisfies the async `Seek` capability, per
`impl<T> Seek for PinCursor<T> where T: Unpin, Cursor<T>: Seek`. -/
def hasSeek : Ty → Bool
  | .cursorTy t => cursorHasSeek t
  | .pinCursorTy t => unpin t && cursorHasSeek t
  | _ => false

/-- Whether `PinCursor<T>` is constructible, per the bound on its inherent
impl block: `T: Unpin` and `Cursor<T>: Write + Read + Seek`. -/
def wrapConstructible (t : Ty) : Bool :=
  unpin t && cursorHasWrite t && cursorHasRead t && cursorHasSeek t

/-!
The claims.
-/

/-- C1: for every wrapper state and every argument, each of read, write,
seek and the vectored read/write variants returns exactly the inner
cursor's result and leaves the inner cursor in exactly the state the inner
operation produces; and the wrapper holds no state of its own — it is
recovered from its inner cursor alone by `wrap`, so delegation also adds
no failure modes beyond the inner cursor's. -/
theorem C1_pass_through (s : PinCursor) (k : Nat) (b : List Nat)
    (sf : SeekFrom) (ks : List Nat) (bs : List (List Nat)) :
    (s.read k).1 = (s.c.read k).1 ∧ (s.read k).2.c = (s.c.read k).2 ∧
    (s.write b).1 = (s.c.write b).1 ∧ (s.write b).2.c = (s.c.write b).2 ∧
    (s.seek sf).1 = (s.c.seek sf).1 ∧ (s.seek sf).2.c = (s.c.seek sf).2 ∧
    (s.readVectored ks).1 = (s.c.readVectored ks).1 ∧
    (s.readVectored ks).2.c = (s.c.readVectored ks).2 ∧
    (s.writeVectored bs).1 = (s.c.writeVectored bs).1 ∧
    (s.writeVectored bs).2.c = (s.c.writeVectored bs).2 ∧
    PinCursor.wrap s.c = s :=
  ⟨rfl, rfl, rfl, rfl, rfl, rfl, rfl, rfl, rfl, rfl, rfl⟩

/-- C2: for every element type `T` for which `PinCursor<T>` is
constructible (the bound of its inherent impl block), `PinCursor<T>` is
not `Unpin` yet satisfies the `Read`, `Write` and `Seek` capabilities —
the compile-time property asserted by the crate's `tests::impls`. -/
theorem C2_not_unpin_but_rws (t : Ty) (h : wrapConstructible t = true) :
    unpin (.pinCursorTy t) = false ∧ hasRead (.pinCursorTy t) = true ∧
    hasWrite (.pinCursorTy t) = true ∧ hasSeek (.pinCursorTy t) = true := by
  simp only [wrapConstructible, Bool.and_eq_true] at h
  obtain ⟨⟨⟨hu, hw⟩, hr⟩, hs⟩ := h
  exact ⟨rfl, by simp [hasRead, hu, hr], by simp [hasWrite, hu, hw],
    by simp [hasSeek, hu, hs]⟩

/-- Witness for C2 at the concrete element type `Vec<u8>`. -/
theorem C2_not_unpin_but_rws_witness :
    wrapConstructible .u8Vec = true ∧
    (unpin (.pinCursorTy .u8Vec) = false ∧ hasRead (.pinCursorTy .u8Vec) = true ∧
     hasWrite (.pinCursorTy .u8Vec) = true ∧ hasSeek (.pinCursorTy .u8Vec) = true) :=
  ⟨by decide, C2_not_unpin_but_rws .u8Vec (by decide)⟩

/-- C5: seeking to `Start(p)` with `p` within the buffer succeeds, returns
`p`, and a subsequent `position()` yields `p`. -/
theorem C5_seek_start (s : PinCursor) (p : Nat) (hp : p ≤ s.c.inner.length) :
    (s.seek (.start p)).1 = .ok p ∧ (s.seek (.start p)).2.position = p :=
  ⟨rfl, rfl⟩

/-- Witness for C5 on a three-byte buffer at target 2. -/
theorem C5_seek_start_witness :
    2 ≤ (PinCursor.wrap ⟨[5, 6, 7], 0⟩).c.inner.length ∧
    (((PinCursor.wrap ⟨[5, 6, 7], 0⟩).seek (.start 2)).1 = .ok 2 ∧
     ((PinCursor.wrap ⟨[5, 6, 7], 0⟩).seek (.start 2)).2.position = 2) :=
  ⟨by decide, C5_seek_start (PinCursor.wrap ⟨[5, 6, 7], 0⟩) 2 (by decide)⟩

/-- C6: `set_position(p)` followed immediately by `position()` yields `p`;
`set_position` is embedded as a total pure state transition (no `Except`
result and no suspension), so it cannot fail. -/
theorem C6_set_position (s : PinCursor) (p : Nat) :
    (s.set_position p).position = p :=
  rfl

/-- C7: unwrapping a freshly wrapped cursor returns exactly that cursor
(same contents and position); both steps are total functions. -/
theorem C7_unwrap_wrap (c : Cursor) : (PinCursor.wrap c).unwrap = c :=
  rfl

/-- C9: the stack-pinning integration's construction step produces exactly
`wrap src` paired with the empty side-channel value `()`, and the post-pin
fix-up step returns the wrapper unchanged. -/
theorem C9_stackpin (src : Cursor) (s : PinCursor) (d : Unit) :
    from_unpinned src = (PinCursor.wrap src, ()) ∧ on_pin s d = s :=
  ⟨rfl, rfl⟩

/-- C10: the wrapper also exposes flush and close; each forwards verbatim
to the inner cursor's primitive, returning its result unchanged and
leaving the buffer contents and position exactly as the inner primitive
leaves them. -/
theorem C10_flush_close (s : PinCursor) :
    (s.flush).1 = (s.c.flush).1 ∧ (s.flush).2.c = (s.c.flush).2 ∧
    (s.close).1 = (s.c.close).1 ∧ (s.close).2.c = (s.c.close).2 ∧
    (s.flush).2.c.inner = s.c.inner ∧ (s.flush).2.c.pos = s.c.pos ∧
    (s.close).2.c.inner = s.c.inner ∧ (s.close).2.c.pos = s.c.pos :=
  ⟨rfl, rfl, rfl, rfl, rfl, rfl, rfl, rfl⟩

/-- Reading back a block from the position where it starts recovers it. -/
theorem drop_take_middle (t b r : List Nat) (p : Nat) (ht : t.length = p) :
    ((t ++ b ++ r).drop p).take b.length = b := by
  subst ht
  rw [List.append_assoc, List.drop_left, List.take_left]

/-- C3: writing a byte sequence `b` at the wrapper's current position `p`
and then reading `|b|` bytes back from that same position (with no
intervening write) yields exactly `b`. -/
theorem C3_round_trip (s : PinCursor) (b : List Nat) :
    (((s.write b).2.set_position s.position).read b.length).1 = b := by
  simp only [PinCursor.write, PinCursor.set_position, PinCursor.position, PinCursor.read,
    Cursor.write, Cursor.set_position, Cursor.position, Cursor.read]
  apply drop_take_middle
  simp only [List.length_take, List.length_append, List.length_replicate]
  omega

/-- C4: a seek specification resolving to an absolute offset before the
start of the buffer makes `seek` return the invalid-seek error and leaves
`position()` exactly as it was. -/
theorem C4_invalid_seek (s : PinCursor) (sf : SeekFrom)
    (h : s.c.seekTarget sf < 0) :
    (s.seek sf).1 = .error .invalidSeek ∧ (s.seek sf).2.position = s.position := by
  cases sf with
  | start n =>
    exact absurd h (by simp [Cursor.seekTarget])
  | fromEnd off =>
    simp only [Cursor.seekTarget] at h
    simp only [PinCursor.seek, Cursor.seek]
    rw [if_neg (by omega)]
    exact ⟨rfl, rfl⟩
  | current off =>
    simp only [Cursor.seekTarget] at h
    simp only [PinCursor.seek, Cursor.seek]
    rw [if_neg (by omega)]
    exact ⟨rfl, rfl⟩

/-- Witness for C4: seeking by `Current(-1)` on a fresh empty cursor. -/
theorem C4_invalid_seek_witness :
    (PinCursor.wrap ⟨[], 0⟩).c.seekTarget (.current (-1)) < 0 ∧
    (((PinCursor.wrap ⟨[], 0⟩).seek (.current (-1))).1 = .error .invalidSeek ∧
     ((PinCursor.wrap ⟨[], 0⟩).seek (.current (-1))).2.position =
       (PinCursor.wrap ⟨[], 0⟩).position) :=
  ⟨by decide, C4_invalid_seek (PinCursor.wrap ⟨[], 0⟩) (.current (-1)) (by decide)⟩

/-- Issuing the single-segment wrapper reads one after another agrees with
the wrapper's vectored read. -/
theorem seqRead_eq_readVectored : ∀ (ks : List Nat) (s : PinCursor),
    s.seqRead ks = s.readVectored ks
  | [], _ => rfl
  | k :: rest, s => by
    simp only [PinCursor.seqRead, PinCursor.readVectored, PinCursor.read, Cursor.readVectored,
      seqRead_eq_readVectored rest]

/-- Issuing the single-segment wrapper writes one after another agrees with
the wrapper's vectored write. -/
theorem seqWrite_eq_writeVectored : ∀ (bs : List (List Nat)) (s : PinCursor),
    s.seqWrite bs = s.writeVectored bs
  | [], _ => rfl
  | b :: rest, s => by
    simp only [PinCursor.seqWrite, PinCursor.writeVectored, PinCursor.write, Cursor.writeVectored,
      seqWrite_eq_writeVectored rest]

/-- C8: for every list of segments and every wrapper state, the vectored
read (resp. write) produces the same cumulative byte count, the same
segment contents in the same order, and the same final state as the
equivalent sequence of single-segment reads (resp. writes) issued one
after another. -/
theorem C8_vectored_eq_sequential (s : PinCursor) (ks : List Nat) (bs : List (List Nat)) :
    s.readVectored ks = s.seqRead ks ∧ s.writeVectored bs = s.seqWrite bs :=
  ⟨(seqRead_eq_readVectored ks s).symm, (seqWrite_eq_writeVectored bs s).symm⟩

end PinCursorSpec
